import Mathlib

/-!
Verification development for the stock-advisor risk-analytics core.

Shallow embedding of the Python modules
`src/core/concentration.py`, `src/core/shock_sensitivity.py`,
`src/core/scenario_analysis.py`, `src/core/technicals.py`,
`src/core/health_check.py` and `src/core/return_estimate.py`.

Modelling conventions:
- Python floats are modelled as exact numbers: `ℚ` where the code only
  performs field arithmetic and comparisons, `ℝ` where it takes real
  powers or square roots (the ETF CAGR estimator).
- Python dicts are modelled as association lists `List (String × _)`
  preserving insertion order (Python 3.7+ semantics); `dict.get` is
  `List.lookup`.
- `round(x, 4)` is modelled with the mathematical `round` (Python uses
  round-half-to-even; the two agree except at exact half-way ties, which
  no statement below touches).
- the market-data collaborator (`YahooClient`) is a record of abstract
  functions; the correlation/VaR sub-computation of `run_scenario`,
  which operates on external pandas DataFrames, is modelled as one
  collaborator call returning `Except String (ℚ × ℚ × String)`, where
  `Except.error` models a raised exception and `Except.ok` the triple
  (var_95, var_99, correlation_summary) the try-block would produce.
- fixed presentation string tables (level labels, action texts, note
  format strings) are not modelled; notes are an inductive type.
-/

/-- Embedding of Python `str.strip()` (whitespace strip on both ends). -/
def pyStrip (s : String) : String :=
  ⟨(((s.data.dropWhile Char.isWhitespace).reverse.dropWhile Char.isWhitespace).reverse)⟩

/-- Embedding of Python `str.upper()` (ASCII uppercasing, as `Char.toUpper`). -/
def pyUpper (s : String) : String :=
  ⟨s.data.map Char.toUpper⟩

/-- Embedding of the Python idiom `a or b` on optional strings: the empty
string is falsy, so it also falls through to the default. -/
def orElseStr (o : Option String) (d : String) : String :=
  match o with
  | some s => if s = "" then d else s
  | none => d

/-- Embedding of Python `round(x, 4)` on exact rationals. -/
def round4Q (x : ℚ) : ℚ :=
  ((round (x * 10000) : ℤ) : ℚ) / 10000

/-- Embedding of `calculate_hhi` from `src/core/concentration.py`:
normalise the weights by their sum and sum the squares of the ratios of
the strictly positive weights; empty input or non-positive total gives 0. -/
def calculate_hhi (weights : List ℚ) : ℚ :=
  if weights = [] then 0
  else
    let total := weights.sum
    if total ≤ 0 then 0
    else ((weights.filter (fun w => decide (0 < w))).map (fun w => (w / total) ^ 2)).sum

/-- Embedding of `classify_hhi` from `src/core/concentration.py`. -/
def classify_hhi (hhi : ℚ) : String :=
  if hhi < 15 / 100 then "低集中 (分散良好)"
  else if hhi < 25 / 100 then "中集中"
  else "高集中 (要注意)"

/-- Ticker metadata record returned by the market-data collaborator
(`get_ticker_info`); every field is optional, matching the spec. -/
structure TickerInfo where
  longName : Option String := none
  shortName : Option String := none
  sector : Option String := none
  currentPrice : Option ℚ := none
  regularMarketPrice : Option ℚ := none
  returnOnEquity : Option ℚ := none
  revenueGrowth : Option ℚ := none
  operatingMargins : Option ℚ := none
deriving DecidableEq

/-- Market-data collaborator. `corrVar` models the whole correlation/VaR
try-block of `run_scenario` (fetch_returns, correlation matrix, VaR at
both confidences, top-pair formatting) as a single external computation:
`Except.error` is a raised exception, `Except.ok (v95, v99, summary)` a
normal completion. `getHistory` returns the 2-year daily close series
with missing values already dropped. -/
structure YahooClient where
  getTickerInfo : String → TickerInfo
  isEtf : String → Bool
  getHistory : String → List ℚ
  corrVar : List String → List ℚ → Except String (ℚ × ℚ × String)

/-- Static sector → shock-key table `_SECTOR_SHOCK_KEYS` from
`src/core/shock_sensitivity.py`. -/
def sectorShockKeys : List (String × List String) :=
  [("Technology", ["technology", "equity"]),
   ("Communication Services", ["technology", "equity"]),
   ("Real Estate", ["real_estate", "equity"]),
   ("Energy", ["oil", "equity"]),
   ("Basic Materials", ["commodity", "equity"]),
   ("Consumer Cyclical", ["other_equity", "equity"]),
   ("Consumer Defensive", ["equity"]),
   ("Industrials", ["other_equity", "equity"]),
   ("Healthcare", ["healthcare", "equity"]),
   ("Financial Services", ["equity"]),
   ("Utilities", ["equity"])]

/-- Static keyword table `_ETF_CLASS_KEYWORDS` from
`src/core/shock_sensitivity.py`; scanned in order, first match wins. -/
def etfClassKeywords : List (List String × String) :=
  [(["Gold", "金", "GOLD"], "gold"),
   (["Treasury", "T-Bond", "Treasur"], "treasury"),
   (["Long Bond", "Long-Bond", "20+", "長期債", "TLT"], "long_bond"),
   (["TIPS", "Inflation", "インフレ"], "tips"),
   (["Defense", "Aerospace", "防衛"], "defense"),
   (["Dividend", "Income", "インカム", "配当"], "equity_income"),
   (["Bond", "債券", "Fixed Income", "Credit"], "long_bond")]

/-- Substring test used for the Python `kw.upper() in name` check. -/
def containsSub (needle hay : String) : Bool :=
  decide (needle.data <:+: hay.data)

/-- Embedding of `get_etf_class` from `src/core/shock_sensitivity.py`. -/
def get_etf_class (ticker : String) (info : TickerInfo) : Option String :=
  let name := pyUpper (orElseStr info.longName (orElseStr info.shortName ticker))
  (etfClassKeywords.find? (fun g => g.1.any (fun kw => containsSub (pyUpper kw) name))).map
    Prod.snd

/-- Embedding of `get_shock_mapping` from `src/core/shock_sensitivity.py`. -/
def get_shock_mapping (ticker : String) (client : YahooClient) : List (String × ℚ) :=
  let info := client.getTickerInfo ticker
  if client.isEtf ticker then
    match get_etf_class ticker info with
    | some cls =>
      if cls = "gold" then [("gold", 1)]
      else if cls = "long_bond" ∨ cls = "treasury" then [("long_bond", 1), ("bond", 1)]
      else if cls = "tips" then [("tips", 1), ("bond", 1 / 2)]
      else if cls = "defense" then [("defense", 1), ("equity", 1 / 2)]
      else if cls = "equity_income" then [("equity", 1)]
      else [("equity", 1)]
    | none => [("equity", 1)]
  else
    let sector := orElseStr info.sector ""
    let keys := ((sectorShockKeys.lookup sector).getD ["equity"])
    keys.map (fun k => (k, 1))

/-- Scenario definition (one entry of the loaded scenarios table). -/
structure Scenario where
  name : Option String := none
  description : Option String := none
  shocks : List (String × ℚ) := []
  etf_overrides : List (String × ℚ) := []
  sector_multipliers : List (String × ℚ) := []

/-- Loop of `_compute_impact` that scans the shock mapping in order and
keeps the first hit, upgrading a generic "equity" hit to a more specific
key when one appears later (lines 145-153 of
`src/core/scenario_analysis.py`). State is (best_shock, best_key). -/
def pickShock (shocks : List (String × ℚ)) (shockMap : List (String × ℚ)) :
    Option ℚ × Option String :=
  shockMap.foldl
    (fun acc kv =>
      match List.lookup kv.1 shocks with
      | none => acc
      | some s =>
        if acc.1 = none ∨ (kv.1 ≠ "equity" ∧ acc.2 = some "equity") then (some s, some kv.1)
        else acc)
    (none, none)

/-- Embedding of `_compute_impact` from `src/core/scenario_analysis.py`. -/
def compute_impact (ticker : String) (info : TickerInfo) (is_etf : Bool)
    (shocks etf_overrides sector_multipliers : List (String × ℚ))
    (client : YahooClient) : ℚ :=
  let overrideShock : Option ℚ :=
    if is_etf then
      match get_etf_class ticker info with
      | some cls => List.lookup cls etf_overrides
      | none => none
    else none
  match overrideShock with
  | some v => v
  | none =>
    let shockMap := get_shock_mapping ticker client
    let best := pickShock shocks shockMap
    let bestShock : ℚ :=
      match best.1 with
      | some s => s
      | none => (List.lookup "equity" shocks).getD ((List.lookup "other_equity" shocks).getD 0)
    let sector := orElseStr info.sector ""
    let multiplier := (List.lookup sector sector_multipliers).getD 1
    bestShock * multiplier

/-- Embedding of `_describe_shock` from `src/core/scenario_analysis.py`. -/
def describe_shock (ticker : String) (info : TickerInfo) (is_etf : Bool)
    (shocks etf_overrides : List (String × ℚ)) (client : YahooClient) : String :=
  let etfLabel : Option String :=
    if is_etf then
      match get_etf_class ticker info with
      | some cls =>
        if (List.lookup cls etf_overrides).isSome then some ("ETF(" ++ cls ++ ")") else none
      | none => none
    else none
  match etfLabel with
  | some l => l
  | none =>
    match (get_shock_mapping ticker client).find?
        (fun kv => (List.lookup kv.1 shocks).isSome && kv.1 != "equity") with
    | some kv => kv.1
    | none => "equity"

/-- One row of the sorted per-ticker impact table of a scenario result. -/
structure ImpactEntry where
  ticker : String
  name : String
  sector : String
  is_etf : Bool
  impact_pct : ℚ
  shock_applied : String
deriving DecidableEq

/-- Full scenario result record returned by `run_scenario`. -/
structure ScenarioResult where
  scenario_name : String
  scenario_description : String
  hhi : ℚ
  hhi_label : String
  ticker_impacts : List ImpactEntry
  portfolio_impact : ℚ
  var_95 : ℚ
  var_99 : ℚ
  correlation_summary : String
  error : Option String
deriving DecidableEq

/-- Error record returned on input-validation failure: only the error
field carries information, no per-ticker computation is performed. -/
def errorResult (msg : String) : ScenarioResult :=
  { scenario_name := "", scenario_description := "", hhi := 0, hhi_label := "",
    ticker_impacts := [], portfolio_impact := 0, var_95 := 0, var_99 := 0,
    correlation_summary := "", error := some msg }

/-- Ordering relation used to sort impact rows (ascending impact). -/
def impactLe (a b : ImpactEntry) : Prop :=
  a.impact_pct ≤ b.impact_pct

instance : DecidableRel impactLe :=
  fun a b => inferInstanceAs (Decidable (a.impact_pct ≤ b.impact_pct))

instance : IsTrans ImpactEntry impactLe :=
  ⟨fun _ _ _ h h2 => le_trans h h2⟩

instance : IsTotal ImpactEntry impactLe :=
  ⟨fun a b => le_total a.impact_pct b.impact_pct⟩

/-- Stable ascending sort of the impact rows, modelling
`ticker_impacts.sort(key=lambda x: x["impact_pct"])`. -/
def sortImpacts (l : List ImpactEntry) : List ImpactEntry :=
  List.insertionSort impactLe l

/-- Per-ticker loop body of `run_scenario` (lines 55-75 of
`src/core/scenario_analysis.py`): builds the display row and also keeps
the unrounded impact used for the portfolio aggregate. -/
def entryFor (client : YahooClient) (scenario : Scenario) (t0 : String) :
    ImpactEntry × ℚ :=
  let t := pyUpper (pyStrip t0)
  let info := client.getTickerInfo t
  let name := orElseStr info.longName (orElseStr info.shortName t)
  let sector := orElseStr info.sector "-"
  let is_etf := client.isEtf t
  let impact := compute_impact t info is_etf scenario.shocks scenario.etf_overrides
    scenario.sector_multipliers client
  let label := describe_shock t info is_etf scenario.shocks scenario.etf_overrides client
  ({ ticker := t, name := name, sector := sector, is_etf := is_etf,
     impact_pct := round4Q impact, shock_applied := label }, impact)

/-- All per-ticker rows of a scenario run, in input order. -/
def entriesFor (client : YahooClient) (scenario : Scenario) (tickers : List String) :
    List (ImpactEntry × ℚ) :=
  tickers.map (entryFor client scenario)

/-- Weight resolution of `run_scenario`: the supplied weights are used
only when non-empty and of matching length, else equal weight. -/
def resolveWeights (tickers : List String) (weights : Option (List ℚ)) : List ℚ :=
  match weights with
  | some ws => if ws ≠ [] ∧ ws.length = tickers.length then ws else List.replicate tickers.length 1
  | none => List.replicate tickers.length 1

/-- Weighted portfolio impact: dot product over total weight, 0 when the
total weight is not positive. -/
def portfolioImpact (impacts w : List ℚ) : ℚ :=
  if 0 < w.sum then (List.zipWith (fun a b => a * b) impacts w).sum / w.sum else 0

/-- Success branch of `run_scenario` (lines 51-119 of
`src/core/scenario_analysis.py`): per-ticker impacts, ascending sort,
HHI over resolved weights, weighted portfolio impact, and the
correlation/VaR block guarded by the exception boundary. -/
def successResult (scenario : Scenario) (scenario_key : String) (tickers : List String)
    (client : YahooClient) (weights : Option (List ℚ)) : ScenarioResult :=
  let pairs := entriesFor client scenario tickers
  let w := resolveWeights tickers weights
  let hhi := calculate_hhi w
  let cv :=
    match client.corrVar tickers w with
    | Except.ok v => v
    | Except.error _ => (0, 0, "")
  { scenario_name := scenario.name.getD scenario_key,
    scenario_description := scenario.description.getD "",
    hhi := round4Q hhi,
    hhi_label := classify_hhi hhi,
    ticker_impacts := sortImpacts (pairs.map Prod.fst),
    portfolio_impact := round4Q (portfolioImpact (pairs.map Prod.snd) w),
    var_95 := cv.1,
    var_99 := cv.2.1,
    correlation_summary := cv.2.2,
    error := none }

/-- Embedding of `run_scenario` from `src/core/scenario_analysis.py`:
validates the scenario key and the ticker list, then runs the success
branch. -/
def run_scenario (tickers : List String) (scenario_key : String)
    (scenarios : List (String × Scenario)) (client : YahooClient)
    (weights : Option (List ℚ)) : ScenarioResult :=
  match List.lookup scenario_key scenarios with
  | none => errorResult ("シナリオ " ++ scenario_key ++ " が見つかりません。")
  | some scenario =>
    if tickers = [] then errorResult "ティッカーが指定されていません。"
    else successResult scenario scenario_key tickers client weights

/-- Cross state of the two moving averages. -/
inductive Cross where
  | golden
  | dead
  | noCross
deriving DecidableEq

/-- Per-ticker technical signal snapshot (output of
`get_technical_signals`); absent values are `none`, the boolean flags
default to `false` and the cross state to `noCross`, exactly as the
result dict is initialised in `src/core/technicals.py`. -/
structure TechSignals where
  current_price : Option ℚ := none
  sma50 : Option ℚ := none
  sma200 : Option ℚ := none
  rsi : Option ℚ := none
  cross : Cross := Cross.noCross
  above_sma50 : Bool := false
  above_sma200 : Bool := false
  sma50_near_sma200 : Bool := false
deriving DecidableEq

/-- Rolling simple moving average series (embedding of `calculate_sma`
followed by `dropna`): pairs of (index, mean of the window ending there),
defined from index `w - 1` on. -/
def smaSeries (prices : List ℚ) (w : ℕ) : List (ℕ × ℚ) :=
  (List.range prices.length).filterMap
    (fun i =>
      if w ≤ i + 1 then some (i, ((prices.take (i + 1)).drop (i + 1 - w)).sum / (w : ℚ))
      else none)

/-- Embedding of `detect_cross` from `src/core/technicals.py`: restrict
to the common indices of the two series, look at the last two, classify
the transition. -/
def detectCross (fast slow : List (ℕ × ℚ)) : Cross :=
  let common := (fast.map Prod.fst).filter (fun i => (slow.map Prod.fst).contains i)
  if common.length < 2 then Cross.noCross
  else
    let i0 := common.getD (common.length - 2) 0
    let i1 := common.getD (common.length - 1) 0
    let f0 := (List.lookup i0 fast).getD 0
    let s0 := (List.lookup i0 slow).getD 0
    let f1 := (List.lookup i1 fast).getD 0
    let s1 := (List.lookup i1 slow).getD 0
    if ¬s0 < f0 ∧ s1 < f1 then Cross.golden
    else if s0 < f0 ∧ ¬s1 < f1 then Cross.dead
    else Cross.noCross

/-- Embedding of `get_technical_signals` from `src/core/technicals.py`.
The price list is the close series with missing values dropped. The RSI
last value (Wilder smoothing over external pandas ewm, whose numeric
value no claim depends on) is passed in as `rsiLast`. An SMA is present
exactly when the history reaches its window, and then equals the mean of
the trailing window, which is the last value of the rolling series. -/
def getTechnicalSignals (rsiLast : List ℚ → Option ℚ) (prices : List ℚ) : TechSignals :=
  match prices.getLast? with
  | none => {}
  | some current =>
    let n := prices.length
    let sma50 : Option ℚ := if 50 ≤ n then some ((prices.drop (n - 50)).sum / 50) else none
    let sma200 : Option ℚ := if 200 ≤ n then some ((prices.drop (n - 200)).sum / 200) else none
    let above50 := match sma50 with | some s => decide (s < current) | none => false
    let above200 := match sma200 with | some s => decide (s < current) | none => false
    let near :=
      match sma50, sma200 with
      | some a, some b => decide (b ≠ 0 ∧ |a - b| / b < 5 / 100)
      | _, _ => false
    let cross :=
      match sma50, sma200 with
      | some _, some _ => detectCross (smaSeries prices 50) (smaSeries prices 200)
      | _, _ => Cross.noCross
    { current_price := some current, sma50 := sma50, sma200 := sma200,
      rsi := rsiLast prices, cross := cross, above_sma50 := above50,
      above_sma200 := above200, sma50_near_sma200 := near }

/-- The four ordered alert levels of the health check. -/
inductive Level where
  | ok
  | watch
  | caution
  | exitLevel
deriving DecidableEq

/-- Position of a level in the order ok < watch < caution < exit. -/
def levelRank : Level → ℕ
  | Level.ok => 0
  | Level.watch => 1
  | Level.caution => 2
  | Level.exitLevel => 3

/-- Triggered signal descriptions collected by `check_health`; each
constructor stands for one of the appended message strings, carrying the
data the message interpolates. -/
inductive Signal where
  | deadCross
  | smaBreak (current : Option ℚ) (sma50 : ℚ)
  | rsiOversold (r : ℚ)
  | smaNear
  | fundaBad (n : ℕ)
  | fundaMild
deriving DecidableEq

/-- Discriminator for the SMA50-breach signal line. -/
def Signal.isSmaBreak : Signal → Bool
  | Signal.smaBreak _ _ => true
  | _ => false

/-- Embedding of `_check_fundamental_deterioration` from
`src/core/health_check.py`: count of ROE below 5 percent, negative
revenue growth and negative operating margin, each only when present. -/
def check_fundamental_deterioration (info : TickerInfo) : ℕ :=
  (match info.returnOnEquity with
   | some roe => if roe < 5 / 100 then 1 else 0
   | none => 0) +
  (match info.revenueGrowth with
   | some g => if g < 0 then 1 else 0
   | none => 0) +
  (match info.operatingMargins with
   | some m => if m < 0 then 1 else 0
   | none => 0)

/-- Health check result record (without the fixed label and action
string tables, which are constant per level). -/
structure HealthResult where
  ticker : String
  name : String
  is_etf : Bool
  level : Level
  signals : List Signal
  technicals : TechSignals
deriving DecidableEq

/-- Signal collection and level determination of `check_health`
(lines 82-137 of `src/core/health_check.py`), taking the already
fetched metadata and technical snapshot. Fundamentals are only
evaluated for non-ETFs; the level cascade checks exit, then caution,
then watch. -/
def checkHealthCore (ticker name : String) (is_etf : Bool) (info : TickerInfo)
    (tech : TechSignals) : HealthResult :=
  let sigs :=
    (if tech.cross = Cross.dead then [Signal.deadCross] else []) ++
    (match tech.sma50 with
     | some s => if tech.above_sma50 = false then [Signal.smaBreak tech.current_price s] else []
     | none => []) ++
    (match tech.rsi with
     | some r => if r < 30 then [Signal.rsiOversold r] else []
     | none => []) ++
    (if tech.sma50_near_sma200 then [Signal.smaNear] else [])
  let fundaCount := if is_etf then 0 else check_fundamental_deterioration info
  let sigsFunda :=
    if is_etf then []
    else if 2 ≤ fundaCount then [Signal.fundaBad fundaCount]
    else if fundaCount = 1 then [Signal.fundaMild]
    else []
  let rsiLow :=
    match tech.rsi with
    | some r => decide (r < 30)
    | none => false
  let level :=
    if is_etf then
      if tech.cross = Cross.dead then Level.exitLevel
      else if tech.sma50_near_sma200 then Level.caution
      else if tech.above_sma50 = false ∨ rsiLow = true then Level.watch
      else Level.ok
    else
      if tech.cross = Cross.dead ∧ 2 ≤ fundaCount then Level.exitLevel
      else if tech.sma50_near_sma200 ∧ 1 ≤ fundaCount then Level.caution
      else if tech.above_sma50 = false ∨ rsiLow = true then Level.watch
      else Level.ok
  { ticker := ticker, name := name, is_etf := is_etf, level := level,
    signals := sigs ++ sigsFunda, technicals := tech }

/-- Embedding of `check_health` from `src/core/health_check.py`:
normalise the ticker, fetch metadata and 2-year history through the
collaborator, compute the technical snapshot, then classify. -/
def check_health (rsiLast : List ℚ → Option ℚ) (client : YahooClient)
    (ticker : String) : HealthResult :=
  let t := pyUpper (pyStrip ticker)
  let info := client.getTickerInfo t
  let name := orElseStr info.longName (orElseStr info.shortName t)
  let is_etf := client.isEtf t
  let tech := getTechnicalSignals rsiLast (client.getHistory t)
  checkHealthCore t name is_etf info tech

/-- Explanatory note of an ETF return estimate; one constructor per
message produced by `_estimate_etf` (the format strings themselves are
presentation), the success note carrying the interpolated data. -/
inductive EtfNote where
  | noHistory
  | shortHistory
  | fewMonthly
  | cagrNote (nMonths : ℕ) (sigma : ℝ)

/-- Three-scenario return estimate produced by `_estimate_etf`. -/
structure EtfEstimate where
  optimistic : ℝ
  base : ℝ
  pessimistic : ℝ
  note : EtfNote

/-- Month-end resampling (embedding of `resample("ME").last().dropna()`
on a chronologically ordered daily close series tagged with its calendar
month): the last close of every run of equal months. -/
def monthlyLast : List (ℕ × ℝ) → List ℝ
  | [] => []
  | [p] => [p.2]
  | p :: q :: rest =>
    if p.1 = q.1 then monthlyLast (q :: rest) else p.2 :: monthlyLast (q :: rest)

/-- Period-over-period percentage change (embedding of
`pct_change().dropna()`). -/
noncomputable def pctChange (l : List ℝ) : List ℝ :=
  List.zipWith (fun prev next => next / prev - 1) l l.tail

/-- Embedding of `round(x, 4)` on reals. -/
noncomputable def round4R (x : ℝ) : ℝ :=
  ((round (x * 10000) : ℤ) : ℝ) / 10000

/-- Embedding of `_estimate_etf` from `src/core/return_estimate.py`,
as a function of the fetched 2-year daily close history (month tag and
close, missing values dropped; the empty list models an empty frame or a
missing Close column). Requires at least 24 daily closes and at least 2
monthly returns, else returns the explanatory zero estimate. CAGR is the
total monthly-compounded return raised to the power 12 over the number
of months, minus 1, with a non-positive total short-circuited to -0.99;
sigma is the sample standard deviation of the monthly returns times the
square root of 12. -/
noncomputable def estimateEtf (history : List (ℕ × ℝ)) : EtfEstimate :=
  if history = [] then ⟨0, 0, 0, EtfNote.noHistory⟩
  else if history.length < 24 then ⟨0, 0, 0, EtfNote.shortHistory⟩
  else
    let rets := pctChange (monthlyLast history)
    if rets.length < 2 then ⟨0, 0, 0, EtfNote.fewMonthly⟩
    else
      let n : ℕ := rets.length
      let total : ℝ := (rets.map (fun r => 1 + r)).prod
      let cagr : ℝ := if total ≤ 0 then -(99 / 100) else total ^ ((12 : ℝ) / (n : ℝ)) - 1
      let mean : ℝ := rets.sum / (n : ℝ)
      let sigma : ℝ :=
        Real.sqrt ((rets.map (fun r => (r - mean) ^ 2)).sum / ((n : ℝ) - 1)) * Real.sqrt 12
      ⟨round4R (min (cagr + sigma) (1 / 2)),
       round4R (max (min cagr (1 / 2)) (-(1 / 2))),
       round4R (max (cagr - sigma) (-(1 / 2))),
       EtfNote.cagrNote n sigma⟩

/-- Number of distinct calendar months a daily history covers. -/
def monthCount (history : List (ℕ × ℝ)) : ℕ :=
  (history.map Prod.fst).dedup.length

/-- Concrete collaborator with no data, used to instantiate theorems. -/
def trivialClient : YahooClient :=
  { getTickerInfo := fun _ => {}, isEtf := fun _ => false, getHistory := fun _ => [],
    corrVar := fun _ _ => Except.ok (0, 0, "") }

/-- Sum of a list scaled elementwise. -/
theorem sum_map_mul (c : ℚ) (w : List ℚ) :
    (w.map (fun x => c * x)).sum = c * w.sum := by
  induction w with
  | nil => simp
  | cons a t ih => simp [ih, mul_add]

/-- Scaling all weights by a positive constant leaves each normalised
squared share unchanged. -/
theorem hhi_scale_aux (c t : ℚ) (hc : 0 < c) (w : List ℚ) :
    (((w.map (fun x => c * x)).filter (fun x => decide (0 < x))).map
        (fun x => (x / (c * t)) ^ 2)).sum =
      ((w.filter (fun x => decide (0 < x))).map (fun x => (x / t) ^ 2)).sum := by
  induction w with
  | nil => simp
  | cons a tl ih =>
    by_cases ha : 0 < a
    · have hca : 0 < c * a := mul_pos hc ha
      simp [ha, hca, ih, mul_div_mul_left _ _ (ne_of_gt hc)]
    · have hca : ¬ 0 < c * a := fun h => ha (by nlinarith)
      simp [ha, hca, ih]

/-- C6: `calculate_hhi` of the empty list is 0, of a one-element list
with positive weight is 1, and is invariant under scaling every weight
by the same positive constant. -/
theorem hhi_empty_single_scale :
    calculate_hhi [] = 0 ∧
    (∀ x : ℚ, 0 < x → calculate_hhi [x] = 1) ∧
    (∀ (c : ℚ) (w : List ℚ), 0 < c →
      calculate_hhi (w.map (fun x => c * x)) = calculate_hhi w) := by
  refine ⟨rfl, ?_, ?_⟩
  · intro x hx
    simp [calculate_hhi, not_le.mpr hx, hx, div_self (ne_of_gt hx)]
  · intro c w hc
    by_cases hw : w = []
    · simp [hw]
    · have hmap : w.map (fun x => c * x) ≠ [] := by
        simpa using hw
      simp only [calculate_hhi, if_neg hmap, if_neg hw, sum_map_mul]
      by_cases ht : w.sum ≤ 0
      · have h2 : c * w.sum ≤ 0 := mul_nonpos_of_nonneg_of_nonpos hc.le ht
        rw [if_pos h2, if_pos ht]
      · have h2 : ¬ c * w.sum ≤ 0 := by
          push_neg at ht ⊢
          exact mul_pos hc ht
        rw [if_neg h2, if_neg ht]
        exact hhi_scale_aux c w.sum hc w

/-- Witness for C6 at concrete inputs. -/
theorem hhi_empty_single_scale_witness :
    calculate_hhi [(3 : ℚ)] = 1 ∧
    calculate_hhi ([(2 : ℚ), 4].map (fun x => (5 : ℚ) * x)) = calculate_hhi [2, 4] :=
  ⟨hhi_empty_single_scale.2.1 3 (by norm_num),
   hhi_empty_single_scale.2.2 5 [2, 4] (by norm_num)⟩

/-- C10: on every non-empty weight list whose sum is not positive,
`calculate_hhi` returns 0 without dividing: the normalisation division
is guarded by a positive total. -/
theorem hhi_nonpositive_total_zero (w : List ℚ) (hne : w ≠ []) (h : w.sum ≤ 0) :
    calculate_hhi w = 0 := by
  simp [calculate_hhi, hne, h]

/-- Witness for C10: a list with negative and positive weights that
cancel. -/
theorem hhi_nonpositive_total_zero_witness : calculate_hhi [1, -2] = 0 :=
  hhi_nonpositive_total_zero [1, -2] (by decide) (by norm_num)

/-- C3: when the scenario key is missing from the table or the ticker
list is empty, `run_scenario` returns a record with the error field set
and no per-ticker impacts; being a total function, it raises nothing. -/
theorem run_scenario_input_errors (tickers : List String) (key : String)
    (scenarios : List (String × Scenario)) (client : YahooClient)
    (weights : Option (List ℚ))
    (h : List.lookup key scenarios = none ∨ tickers = []) :
    (run_scenario tickers key scenarios client weights).error ≠ none ∧
    (run_scenario tickers key scenarios client weights).ticker_impacts = [] := by
  unfold run_scenario
  rcases h with h | h
  · rw [h]
    exact ⟨by simp [errorResult], rfl⟩
  · cases hl : List.lookup key scenarios with
    | none => exact ⟨by simp [errorResult], rfl⟩
    | some s => exact ⟨by simp [h, errorResult], by simp [h, errorResult]⟩

/-- Witness for C3: empty scenario table and empty ticker list. -/
theorem run_scenario_input_errors_witness :
    (run_scenario [] "crash" [] trivialClient none).error ≠ none ∧
    (run_scenario [] "crash" [] trivialClient none).ticker_impacts = [] :=
  run_scenario_input_errors [] "crash" [] trivialClient none (Or.inl rfl)

/-- C5: an ETF with a dead cross in its technical snapshot is classified
`exit`, with a level independent of the fundamentals (never evaluated
for ETFs); an equity is classified `exit` only when a dead cross and a
fundamental deterioration count of at least 2 hold together, so an
equity with a dead cross but count 1 stays strictly below `exit`. -/
theorem health_dead_cross_levels (ticker name : String) (info info2 : TickerInfo)
    (tech : TechSignals) :
    (tech.cross = Cross.dead →
      (checkHealthCore ticker name true info tech).level = Level.exitLevel) ∧
    (checkHealthCore ticker name true info tech).level =
      (checkHealthCore ticker name true info2 tech).level ∧
    ((checkHealthCore ticker name false info tech).level = Level.exitLevel →
      tech.cross = Cross.dead ∧ 2 ≤ check_fundamental_deterioration info) ∧
    (tech.cross = Cross.dead → check_fundamental_deterioration info = 1 →
      levelRank (checkHealthCore ticker name false info tech).level <
        levelRank Level.exitLevel) := by
  refine ⟨fun h => by simp [checkHealthCore, h], by simp [checkHealthCore], ?_, ?_⟩
  · intro hl
    simp only [checkHealthCore] at hl
    split_ifs at hl <;> simp_all
  · intro h hf
    simp only [checkHealthCore, hf]
    split_ifs with h1 h2 h3 <;> simp_all [levelRank]

/-- Witness inputs for C5: one deteriorated fundamental (count 1). -/
def c5Info : TickerInfo := { returnOnEquity := some 0 }

/-- Witness inputs for C5: two deteriorated fundamentals (count 2). -/
def c5Info2 : TickerInfo := { returnOnEquity := some 0, revenueGrowth := some (-1) }

/-- Witness technical snapshot for C5: dead cross, nothing else. -/
def c5Tech : TechSignals := { cross := Cross.dead }

/-- Witness for C5 at concrete inputs: ETF exit on dead cross alone, the
necessity direction at an equity that is actually classified `exit`, and
the count-1 equity staying below `exit`. -/
theorem health_dead_cross_levels_witness :
    (checkHealthCore "T" "N" true c5Info c5Tech).level = Level.exitLevel ∧
    (c5Tech.cross = Cross.dead ∧ 2 ≤ check_fundamental_deterioration c5Info2) ∧
    levelRank (checkHealthCore "T" "N" false c5Info c5Tech).level <
      levelRank Level.exitLevel := by
  have h1 := health_dead_cross_levels "T" "N" c5Info {} c5Tech
  have h2 := health_dead_cross_levels "T" "N" c5Info2 {} c5Tech
  refine ⟨h1.1 rfl, h2.2.2.1 ?_,
    h1.2.2.2 rfl (by norm_num [check_fundamental_deterioration, c5Info])⟩
  norm_num [checkHealthCore, check_fundamental_deterioration, c5Info2, c5Tech]

/-- In `get_technical_signals`, an absent SMA50 forces the remaining
derived fields to their defaults: no cross, not near, not above SMA50. -/
theorem getTechnicalSignals_sma50_none (rsiLast : List ℚ → Option ℚ) (prices : List ℚ)
    (h : (getTechnicalSignals rsiLast prices).sma50 = none) :
    (getTechnicalSignals rsiLast prices).cross = Cross.noCross ∧
    (getTechnicalSignals rsiLast prices).sma50_near_sma200 = false ∧
    (getTechnicalSignals rsiLast prices).above_sma50 = false := by
  unfold getTechnicalSignals at h ⊢
  cases hl : prices.getLast? with
  | none => simp [hl]
  | some cur =>
    by_cases h50 : 50 ≤ prices.length
    · simp [hl, h50] at h
    · simp [h50]

/-- Level of `checkHealthCore` when the snapshot has no cross, is not
near, and is not above SMA50: always `watch`, for ETF and equity alike,
and no SMA50-breach signal line is emitted when SMA50 is absent. -/
theorem checkHealthCore_watch (ticker name : String) (is_etf : Bool)
    (info : TickerInfo) (tech : TechSignals) (hc : tech.cross = Cross.noCross)
    (hn : tech.sma50_near_sma200 = false) (ha : tech.above_sma50 = false)
    (h5 : tech.sma50 = none) :
    (checkHealthCore ticker name is_etf info tech).level = Level.watch ∧
    ((checkHealthCore ticker name is_etf info tech).signals.all
      (fun s => ! s.isSmaBreak)) = true := by
  constructor
  · cases is_etf <;> simp [checkHealthCore, hc, hn, ha]
  · simp only [checkHealthCore, h5, hc, hn, List.all_append, Bool.and_eq_true]
    refine ⟨⟨⟨⟨by simp, by simp⟩, ?_⟩, by simp⟩, ?_⟩
    · cases hr : tech.rsi with
      | none => simp
      | some r =>
        by_cases hlt : r < 30 <;> simp [hlt, Signal.isSmaBreak]
    · cases is_etf
      · simp only [Bool.false_eq_true, if_false]
        split_ifs <;> simp [Signal.isSmaBreak]
      · simp

/-- C9: when SMA50 cannot be computed, `above_sma50` defaults to false,
so `check_health` classifies the ticker `watch` (never `ok`), while the
SMA50-breach signal line is not emitted. -/
theorem missing_sma50_yields_watch (rsiLast : List ℚ → Option ℚ) (client : YahooClient)
    (ticker : String)
    (h : (getTechnicalSignals rsiLast
        (client.getHistory (pyUpper (pyStrip ticker)))).sma50 = none) :
    (check_health rsiLast client ticker).level = Level.watch ∧
    ((check_health rsiLast client ticker).signals.all (fun s => ! s.isSmaBreak)) = true := by
  obtain ⟨hc, hn, ha⟩ := getTechnicalSignals_sma50_none rsiLast
    (client.getHistory (pyUpper (pyStrip ticker))) h
  unfold check_health
  exact checkHealthCore_watch _ _ _ _ _ hc hn ha h

/-- Witness for C9: a ticker with empty price history. -/
theorem missing_sma50_yields_watch_witness :
    (check_health (fun _ => none) trivialClient "T").level = Level.watch ∧
    ((check_health (fun _ => none) trivialClient "T").signals.all
      (fun s => ! s.isSmaBreak)) = true :=
  missing_sma50_yields_watch (fun _ => none) trivialClient "T" rfl

/-- C8: in every successful scenario result the impact rows are sorted
ascending: each adjacent pair is ordered by `impact_pct`. -/
theorem ticker_impacts_sorted (tickers : List String) (key : String)
    (scenarios : List (String × Scenario)) (client : YahooClient)
    (weights : Option (List ℚ))
    (h : (run_scenario tickers key scenarios client weights).error = none) :
    List.Chain' impactLe (run_scenario tickers key scenarios client weights).ticker_impacts := by
  clear h
  unfold run_scenario
  cases hl : List.lookup key scenarios with
  | none => simp [errorResult]
  | some s =>
    by_cases ht : tickers = []
    · simp [ht, errorResult]
    · simp only [if_neg ht]
      show List.Chain' impactLe (successResult s key tickers client weights).ticker_impacts
      simp only [successResult]
      exact List.chain'_iff_pairwise.mpr (List.sorted_insertionSort impactLe _)

/-- Value of `round4Q` when the scaled argument is an integer. -/
theorem round4Q_eq (x : ℚ) (z : ℤ) (h : x * 10000 = (z : ℚ)) :
    round4Q x = (z : ℚ) / 10000 := by
  unfold round4Q
  rw [h, round_intCast]

/-- Scenario table entry for the two-equity scenario test: a -20 percent
equity shock and a -35 percent technology shock. -/
def c2Scenario : Scenario :=
  { shocks := [("equity", -(1/5)), ("technology", -(7/20))] }

/-- Scenario table for the two-equity scenario test. -/
def c2Table : List (String × Scenario) := [("crash", c2Scenario)]

/-- Collaborator for the two-equity scenario test: AAA is a Technology
equity, BBB a Financial Services equity, and the correlation/VaR block
raises. -/
def c2Client : YahooClient :=
  { getTickerInfo := fun t =>
      if t = "AAA" then { longName := some "AAA Corp", sector := some "Technology" }
      else { longName := some "BBB Corp", sector := some "Financial Services" },
    isEtf := fun _ => false,
    getHistory := fun _ => [],
    corrVar := fun _ _ => Except.error "boom" }

/-- C2: for AAA (Technology) and BBB (Financial Services) under shocks
equity -0.20 and technology -0.35, the specific technology shock wins
for AAA (-0.35), BBB takes the generic equity shock (-0.20), and the
equal-weight portfolio impact is -0.275. -/
theorem scenario_specific_beats_generic :
    (run_scenario ["AAA", "BBB"] "crash" c2Table c2Client none).error = none ∧
    ((run_scenario ["AAA", "BBB"] "crash" c2Table c2Client none).ticker_impacts.map
      (fun e => (e.ticker, e.impact_pct))) = [("AAA", -(7/20)), ("BBB", -(1/5))] ∧
    (run_scenario ["AAA", "BBB"] "crash" c2Table c2Client none).portfolio_impact
      = -(11/40) := by
  have hA : pyUpper (pyStrip "AAA") = "AAA" := by decide
  have hB : pyUpper (pyStrip "BBB") = "BBB" := by decide
  have hiA : c2Client.getTickerInfo "AAA"
      = { longName := some "AAA Corp", sector := some "Technology" } := by
    simp [c2Client]
  have hiB : c2Client.getTickerInfo "BBB"
      = { longName := some "BBB Corp", sector := some "Financial Services" } := by
    simp [c2Client]
  have hetf : ∀ t, c2Client.isEtf t = false := fun _ => rfl
  have hmapA : get_shock_mapping "AAA" c2Client = [("technology", 1), ("equity", 1)] := by
    simp [get_shock_mapping, c2Client, orElseStr, sectorShockKeys, List.lookup]
  have hmapB : get_shock_mapping "BBB" c2Client = [("equity", 1)] := by
    simp [get_shock_mapping, c2Client, orElseStr, sectorShockKeys, List.lookup]
  have hpickA : pickShock [("equity", -(1/5)), ("technology", -(7/20))]
      [("technology", (1:ℚ)), ("equity", 1)] = (some (-(7/20)), some "technology") := by
    simp [pickShock, List.lookup, -one_div]
  have hpickB : pickShock [("equity", -(1/5)), ("technology", -(7/20))]
      [("equity", (1:ℚ))] = (some (-(1/5)), some "equity") := by
    simp [pickShock, List.lookup, -one_div]
  have hciA : compute_impact "AAA"
      { longName := some "AAA Corp", sector := some "Technology" } false
      [("equity", -(1/5)), ("technology", -(7/20))] [] [] c2Client = -(7/20) := by
    simp [compute_impact, hmapA, hpickA, orElseStr, -one_div]
  have hciB : compute_impact "BBB"
      { longName := some "BBB Corp", sector := some "Financial Services" } false
      [("equity", -(1/5)), ("technology", -(7/20))] [] [] c2Client = -(1/5) := by
    simp [compute_impact, hmapB, hpickB, orElseStr, -one_div]
  have hdsA : describe_shock "AAA"
      { longName := some "AAA Corp", sector := some "Technology" } false
      [("equity", -(1/5)), ("technology", -(7/20))] [] c2Client = "technology" := by
    simp [describe_shock, hmapA, List.lookup, -one_div]
  have hdsB : describe_shock "BBB"
      { longName := some "BBB Corp", sector := some "Financial Services" } false
      [("equity", -(1/5)), ("technology", -(7/20))] [] c2Client = "equity" := by
    simp [describe_shock, hmapB, List.lookup, -one_div]
  have rqA : round4Q (-(7/20)) = -(7/20) := by
    rw [round4Q_eq (-(7/20)) (-3500) (by norm_num)]
    norm_num
  have rqB : round4Q (-(1/5)) = -(1/5) := by
    rw [round4Q_eq (-(1/5)) (-2000) (by norm_num)]
    norm_num
  have heA : entryFor c2Client c2Scenario "AAA"
      = ({ ticker := "AAA", name := "AAA Corp", sector := "Technology", is_etf := false,
           impact_pct := -(7/20), shock_applied := "technology" }, -(7/20)) := by
    simp [entryFor, hA, hiA, hetf, c2Scenario, hciA, hdsA, orElseStr, rqA, -one_div]
  have heB : entryFor c2Client c2Scenario "BBB"
      = ({ ticker := "BBB", name := "BBB Corp", sector := "Financial Services",
           is_etf := false, impact_pct := -(1/5), shock_applied := "equity" }, -(1/5)) := by
    simp [entryFor, hB, hiB, hetf, c2Scenario, hciB, hdsB, orElseStr, rqB, -one_div]
  have hent : entriesFor c2Client c2Scenario ["AAA", "BBB"]
      = [({ ticker := "AAA", name := "AAA Corp", sector := "Technology", is_etf := false,
            impact_pct := -(7/20), shock_applied := "technology" }, -(7/20)),
         ({ ticker := "BBB", name := "BBB Corp", sector := "Financial Services",
            is_etf := false, impact_pct := -(1/5), shock_applied := "equity" }, -(1/5))] := by
    simp [entriesFor, heA, heB, -one_div]
  have hsort : sortImpacts
      [{ ticker := "AAA", name := "AAA Corp", sector := "Technology", is_etf := false,
         impact_pct := -(7/20), shock_applied := "technology" },
       { ticker := "BBB", name := "BBB Corp", sector := "Financial Services",
         is_etf := false, impact_pct := -(1/5), shock_applied := "equity" }]
      = [{ ticker := "AAA", name := "AAA Corp", sector := "Technology", is_etf := false,
           impact_pct := -(7/20), shock_applied := "technology" },
         { ticker := "BBB", name := "BBB Corp", sector := "Financial Services",
           is_etf := false, impact_pct := -(1/5), shock_applied := "equity" }] := by
    norm_num [sortImpacts, List.insertionSort, List.orderedInsert, impactLe, -one_div]
  have hw : resolveWeights ["AAA", "BBB"] none = [1, 1] := by
    simp [resolveWeights, List.replicate]
  have hpi : portfolioImpact [-(7/20), -(1/5)] [1, 1] = -(11/40) := by
    norm_num [portfolioImpact]
  have rqP : round4Q (-(11/40)) = -(11/40) := by
    rw [round4Q_eq (-(11/40)) (-2750) (by norm_num)]
    norm_num
  have hcv : c2Client.corrVar ["AAA", "BBB"] [1, 1] = Except.error "boom" := rfl
  refine ⟨?_, ?_, ?_⟩ <;>
    simp [run_scenario, c2Table, List.lookup, successResult, hent, hsort, hw, hpi, rqP,
      hcv, -one_div]

/-- Witness for C8: a concrete successful run. -/
theorem ticker_impacts_sorted_witness :
    List.Chain' impactLe
      (run_scenario ["AAA", "BBB"] "crash" c2Table c2Client none).ticker_impacts :=
  ticker_impacts_sorted ["AAA", "BBB"] "crash" c2Table c2Client none
    (by simp [run_scenario, c2Table, List.lookup, successResult])

/-- C4: when validation passes and the correlation/VaR block raises, the
scenario result is still complete: no error, VaR fields zero, empty
correlation summary, and every other field computed as in the success
path. -/
theorem run_scenario_corrvar_boundary (tickers : List String) (key : String)
    (scenarios : List (String × Scenario)) (client : YahooClient)
    (weights : Option (List ℚ)) (scenario : Scenario) (msg : String)
    (hk : List.lookup key scenarios = some scenario) (ht : tickers ≠ [])
    (he : client.corrVar tickers (resolveWeights tickers weights) = Except.error msg) :
    (run_scenario tickers key scenarios client weights).error = none ∧
    (run_scenario tickers key scenarios client weights).var_95 = 0 ∧
    (run_scenario tickers key scenarios client weights).var_99 = 0 ∧
    (run_scenario tickers key scenarios client weights).correlation_summary = "" ∧
    (run_scenario tickers key scenarios client weights).ticker_impacts
      = sortImpacts ((entriesFor client scenario tickers).map Prod.fst) ∧
    (run_scenario tickers key scenarios client weights).portfolio_impact
      = round4Q (portfolioImpact ((entriesFor client scenario tickers).map Prod.snd)
          (resolveWeights tickers weights)) ∧
    (run_scenario tickers key scenarios client weights).hhi
      = round4Q (calculate_hhi (resolveWeights tickers weights)) ∧
    (run_scenario tickers key scenarios client weights).hhi_label
      = classify_hhi (calculate_hhi (resolveWeights tickers weights)) ∧
    (run_scenario tickers key scenarios client weights).scenario_name
      = scenario.name.getD key ∧
    (run_scenario tickers key scenarios client weights).scenario_description
      = scenario.description.getD "" := by
  simp only [run_scenario, hk, if_neg ht, successResult, he]
  simp

/-- Witness for C4: one ticker, one scenario, a raising correlation
block. -/
theorem run_scenario_corrvar_boundary_witness :
    (run_scenario ["AAA"] "crash" c2Table c2Client none).var_95 = 0 ∧
    (run_scenario ["AAA"] "crash" c2Table c2Client none).error = none :=
  have h := run_scenario_corrvar_boundary ["AAA"] "crash" c2Table c2Client none
    c2Scenario "boom" (by simp [c2Table, List.lookup]) (by simp) rfl
  ⟨h.2.1, h.1⟩

/-- Value of `round4R` when the scaled argument is an integer. -/
theorem round4R_exact (x : ℝ) (z : ℤ) (h : x * 10000 = (z : ℝ)) :
    round4R x = (z : ℝ) / 10000 := by
  unfold round4R
  rw [h, round_intCast]

/-- Rounding to 4 decimals cannot push a value above one half. -/
theorem round4R_le_half {x : ℝ} (h : x ≤ 1 / 2) : round4R x ≤ 1 / 2 := by
  have h1 : round (x * 10000) ≤ (5000 : ℤ) := by
    rw [round_eq]
    have h2 : x * 10000 + 1 / 2 < ((5001 : ℤ) : ℝ) := by
      push_cast
      linarith
    have h3 := Int.floor_lt.mpr h2
    omega
  unfold round4R
  have h4 : ((round (x * 10000) : ℤ) : ℝ) ≤ 5000 := by
    exact_mod_cast h1
  linarith

/-- Rounding to 4 decimals cannot push a value below minus one half. -/
theorem round4R_ge_neg_half {x : ℝ} (h : -(1 / 2) ≤ x) : -(1 / 2) ≤ round4R x := by
  have h1 : (-5000 : ℤ) ≤ round (x * 10000) := by
    rw [round_eq]
    apply Int.le_floor.mpr
    push_cast
    linarith
  unfold round4R
  have h4 : (-5000 : ℝ) ≤ ((round (x * 10000) : ℤ) : ℝ) := by
    exact_mod_cast h1
  linarith

/-- C1 (amended): the CAGR estimate caps are one-sided: optimistic never
exceeds 0.5, pessimistic never falls below -0.5, and base is clamped to
both; nothing bounds optimistic from below or pessimistic from above. -/
theorem etf_caps_one_sided (history : List (ℕ × ℝ)) :
    (estimateEtf history).optimistic ≤ 1 / 2 ∧
    -(1 / 2) ≤ (estimateEtf history).base ∧
    (estimateEtf history).base ≤ 1 / 2 ∧
    -(1 / 2) ≤ (estimateEtf history).pessimistic := by
  simp only [estimateEtf]
  split_ifs <;>
    first
      | exact ⟨round4R_le_half inf_le_right, round4R_ge_neg_half le_sup_right,
          round4R_le_half (sup_le inf_le_right (by norm_num)),
          round4R_ge_neg_half le_sup_right⟩
      | norm_num

/-- Daily close history covering 3 calendar months with 26 data points:
flat at 100 for 24 points in the first month, then a month-end close of
200, then a month-end close of 400 (each monthly return +100 percent). -/
def cexHistory : List (ℕ × ℝ) :=
  [(0, 100), (0, 100), (0, 100), (0, 100), (0, 100), (0, 100), (0, 100), (0, 100),
   (0, 100), (0, 100), (0, 100), (0, 100), (0, 100), (0, 100), (0, 100), (0, 100),
   (0, 100), (0, 100), (0, 100), (0, 100), (0, 100), (0, 100), (0, 100), (0, 100),
   (1, 200), (2, 400)]

/-- Month-end resampling of the counterexample history. -/
theorem cex_monthly : monthlyLast cexHistory = [100, 200, 400] := by
  norm_num [cexHistory, monthlyLast]

/-- Monthly returns of the counterexample history. -/
theorem cex_rets : pctChange (monthlyLast cexHistory) = [1, 1] := by
  rw [cex_monthly]
  norm_num [pctChange]

/-- Evaluation of the estimator on the counterexample history: base is
clamped to 0.5 but pessimistic comes out at 4095. -/
theorem estimateEtf_cex :
    (estimateEtf cexHistory).base = 1 / 2 ∧ (estimateEtf cexHistory).pessimistic = 4095 := by
  have hne : cexHistory ≠ [] := by simp [cexHistory]
  have hlen : ¬ cexHistory.length < 24 := by norm_num [cexHistory]
  have hcagr : ((4 : ℝ)) ^ ((6 : ℝ)) = 4096 := by
    rw [(by norm_num : (6 : ℝ) = ((6 : ℕ) : ℝ)), Real.rpow_natCast]
    norm_num
  have hr1 : round4R ((1 : ℝ) / 2) = 1 / 2 := by
    rw [round4R_exact ((1 : ℝ) / 2) 5000 (by norm_num)]
    norm_num
  have hr2 : round4R ((4095 : ℝ)) = 4095 := by
    rw [round4R_exact (4095 : ℝ) 40950000 (by norm_num)]
    norm_num
  simp only [estimateEtf, if_neg hne, if_neg hlen, cex_rets]
  norm_num [hcagr, Real.sqrt_zero, hr1, hr2, min_eq_right, max_eq_left, -one_div]

/-- C1 counterexample: on `cexHistory` (which passes both
data-sufficiency checks) the reported pessimistic value is 4095, so the
three estimates do not all lie in the closed interval from -0.5 to
0.5. -/
theorem etf_caps_violation :
    ¬ (((estimateEtf cexHistory).optimistic ≤ 1 / 2 ∧
        -(1 / 2) ≤ (estimateEtf cexHistory).optimistic) ∧
       ((estimateEtf cexHistory).base ≤ 1 / 2 ∧
        -(1 / 2) ≤ (estimateEtf cexHistory).base) ∧
       ((estimateEtf cexHistory).pessimistic ≤ 1 / 2 ∧
        -(1 / 2) ≤ (estimateEtf cexHistory).pessimistic)) := by
  intro h
  have h2 := h.2.2.1
  rw [estimateEtf_cex.2] at h2
  norm_num at h2

/-- C7 (amended): the estimator returns the all-zero estimate with an
explanatory note whenever the daily close history has fewer than 24 data
points, and whenever fewer than 2 monthly returns remain after month-end
resampling; the CAGR result is produced exactly when both requirements
hold. -/
theorem etf_data_sufficiency_guards (history : List (ℕ × ℝ)) :
    (history.length < 24 →
      (estimateEtf history).optimistic = 0 ∧ (estimateEtf history).base = 0 ∧
      (estimateEtf history).pessimistic = 0 ∧
      ((estimateEtf history).note = EtfNote.noHistory ∨
        (estimateEtf history).note = EtfNote.shortHistory)) ∧
    (¬ history.length < 24 → (pctChange (monthlyLast history)).length < 2 →
      (estimateEtf history).optimistic = 0 ∧ (estimateEtf history).base = 0 ∧
      (estimateEtf history).pessimistic = 0 ∧
      (estimateEtf history).note = EtfNote.fewMonthly) ∧
    (¬ history.length < 24 → ¬ (pctChange (monthlyLast history)).length < 2 →
      ∃ s, (estimateEtf history).note
        = EtfNote.cagrNote (pctChange (monthlyLast history)).length s) := by
  refine ⟨?_, ?_, ?_⟩
  · intro h
    by_cases hne : history = []
    · simp [estimateEtf, hne]
    · simp [estimateEtf, hne, h]
  · intro h hr
    have hne : history ≠ [] := by
      rintro rfl
      simp at h
    simp [estimateEtf, hne, h, hr]
  · intro h hr
    have hne : history ≠ [] := by
      rintro rfl
      simp at h
    simp only [estimateEtf, if_neg hne, if_neg h, if_neg hr]
    exact ⟨_, rfl⟩

/-- C7 counterexample: `cexHistory` spans only 3 calendar months (fewer
than 24), yet the estimator does not return the all-zero result: its
base estimate is 0.5. -/
theorem etf_month_guard_violation :
    monthCount cexHistory = 3 ∧ (estimateEtf cexHistory).base ≠ 0 := by
  constructor
  · have hm : cexHistory.map Prod.fst
        = [0, 0, 0, 0, 0, 0, 0, 0, 0, 0, 0, 0, 0, 0, 0, 0, 0, 0, 0, 0, 0, 0, 0, 0, 1, 2] := by
      norm_num [cexHistory]
    unfold monthCount
    rw [hm]
    decide
  · rw [estimateEtf_cex.1]
    norm_num

/-- Single-day history for the short-history branch of C7. -/
def w7a : List (ℕ × ℝ) := [(0, 100)]

/-- History with 24 data points all in one month: passes the length
check but yields no monthly returns. -/
def w7b : List (ℕ × ℝ) :=
  [(0, 100), (0, 100), (0, 100), (0, 100), (0, 100), (0, 100), (0, 100), (0, 100),
   (0, 100), (0, 100), (0, 100), (0, 100), (0, 100), (0, 100), (0, 100), (0, 100),
   (0, 100), (0, 100), (0, 100), (0, 100), (0, 100), (0, 100), (0, 100), (0, 100)]

/-- Witness for C7 at concrete inputs exercising all three parts. -/
theorem etf_data_sufficiency_guards_witness :
    (estimateEtf w7a).base = 0 ∧ (estimateEtf w7b).note = EtfNote.fewMonthly ∧
    ∃ s, (estimateEtf cexHistory).note = EtfNote.cagrNote 2 s := by
  refine ⟨((etf_data_sufficiency_guards w7a).1 (by norm_num [w7a])).2.1, ?_, ?_⟩
  · have hr : (pctChange (monthlyLast w7b)).length < 2 := by
      norm_num [w7b, monthlyLast, pctChange]
    exact ((etf_data_sufficiency_guards w7b).2.1 (by norm_num [w7b]) hr).2.2.2
  · have h := (etf_data_sufficiency_guards cexHistory).2.2 (by norm_num [cexHistory])
      (by rw [cex_rets]; norm_num)
    rw [cex_rets] at h
    simpa using h
